import Mathlib

/-!
Verification of the okerr crate (src/src/lib.rs): a thin ergonomics layer
over an external error-handling foundation. The crate's own code is
`wrap_err`, `from_boxed_error`, and the delegating macros `anyerr!`,
`err!`, `fail!`; the dynamic error container itself (construction,
context layering, chain iteration) is an external dependency re-exported
at src/src/lib.rs:105 and is modelled here from the specification's
collaborator contract.
-/

namespace Okerr

/-- A concrete error value implementing the standard error contract:
a display message plus an optional single source back-reference
(spec data model, "Contract-implementing type"). -/
inductive StdError : Type where
  | mk (msg : String) (src : Option StdError)

/-- The display text of a concrete error, i.e. the result of
its to_string method. -/
def StdError.display : StdError → String
  | .mk msg _ => msg

/-- The optional source back-reference of a concrete error. -/
def StdError.source : StdError → Option StdError
  | .mk _ s => s

/-- Messages obtained by walking the source links of a concrete error,
excluding the error's own message. -/
def StdError.sourceMsgs : StdError → List String
  | .mk _ none => []
  | .mk _ (some s) => s.display :: s.sourceMsgs

/-- The full causal chain of messages of a concrete error: the error
itself first, then its sources, innermost root last. -/
def StdError.msgChain (e : StdError) : List String :=
  e.display :: e.sourceMsgs

/-- Depth of the causal chain of a concrete error: the error itself plus
its source links; the contract requires chain iteration to yield exactly
1 + (number of source links) entries. -/
def StdError.chainDepth (e : StdError) : Nat :=
  e.msgChain.length

/-- Modelled from the spec: the dynamic, type-erased error container
(re-exported by the crate at src/src/lib.rs:105; its source is not part
of this repository). Per the collaborator contract, a unified error is
determined by its ordered causal chain of messages, most recent first
and never empty: a head message plus the remaining links. -/
structure UnifiedError : Type where
  head : String
  rest : List String
deriving DecidableEq, Repr

/-- Display rendering of a unified error, i.e. its to_string output:
the head message of the chain. -/
def UnifiedError.display (u : UnifiedError) : String := u.head

/-- Chain iteration of a unified error: the head message followed by all
prior links, in order. -/
def UnifiedError.chainMsgs (u : UnifiedError) : List String :=
  u.head :: u.rest

/-- The number of entries chain iteration yields. -/
def UnifiedError.chainCount (u : UnifiedError) : Nat :=
  u.chainMsgs.length

/-- Modelled from the spec: construction of a unified error from a
contract-implementing concrete error (Error::new of the foundation),
"capturing it as the head of the chain with its existing source() as
the next link"; display text is preserved and the chain is not
truncated. -/
def errorNew (e : StdError) : UnifiedError :=
  ⟨e.display, e.sourceMsgs⟩

/-- Modelled from the spec: construction of a unified error from a
boxed, type-erased contract-implementing error (Error::from_boxed of
the foundation): it wraps the input directly, with no copying of the
message and no flattening of the chain. -/
def errorFromBoxed (e : StdError) : UnifiedError :=
  ⟨e.display, e.sourceMsgs⟩

/-- Modelled from the spec: boxing a concrete error as a thread-safe
trait object is pure type erasure; the display text and the source
links of the value are unchanged by boxing. -/
def boxError (e : StdError) : StdError := e

/-- Modelled from the spec: construction of a unified error from a
message or format string alone, a "message-only failure" with no source
chain. The formatted text is taken as the resulting string. -/
def anyerr (msg : String) : UnifiedError := ⟨msg, []⟩

/-- Modelled from the spec: context layering on a unified error
prepends a new head message while preserving all prior links. -/
def UnifiedError.context (u : UnifiedError) (msg : String) : UnifiedError :=
  ⟨msg, u.head :: u.rest⟩

/-- The crate's unified result alias: success of T, or a unified
error. -/
abbrev UnifiedResult (T : Type) := Except UnifiedError T

/-- Modelled from the spec: context layering on a unified result:
success passes through unchanged, a failure gains a new head link. -/
def contextR {T : Type} (r : UnifiedResult T) (msg : String) :
    UnifiedResult T :=
  r.mapError (fun u => u.context msg)

/-- The display text of the failure held by a unified result, when the
result is a failure. -/
def unwrapErrDisplay {T : Type} : UnifiedResult T → Option String
  | .error u => some u.display
  | .ok _ => none

/-- From src/src/lib.rs lines 163 to 167: wrap_err turns a typed result
into a unified result by mapping the error with Error::new; its body is
result.map_err(crate::Error::new). -/
def wrap_err {T : Type} (result : Except StdError T) : UnifiedResult T :=
  result.mapError errorNew

/-- From src/src/lib.rs lines 154 to 158: from_boxed_error converts a
boxed error into a unified error via crate::Error::from_boxed. -/
def from_boxed_error (boxed_err : StdError) : UnifiedError :=
  errorFromBoxed boxed_err

/-- An argument acceptable to the macros of the crate: either a
message or format string, or a contract-implementing error value. -/
inductive ErrInput : Type where
  | msg (s : String)
  | val (e : StdError)

/-- Modelled from the spec: the foundation's error-construction macro
to which the crate's macros delegate: a message input gives a
message-only failure, a contract-implementing value input gives
construction from that value. -/
def anyhowOf : ErrInput → UnifiedError
  | .msg s => anyerr s
  | .val e => errorNew e

/-- From src/src/lib.rs lines 117 to 120: the anyerr macro expands to
the foundation's error-construction macro applied to the same
tokens. -/
def anyerrM (v : ErrInput) : UnifiedError := anyhowOf v

/-- From src/src/lib.rs lines 124 to 127: the err macro expands to Err
of the foundation's error-construction macro applied to the same
tokens. -/
def errM {T : Type} (v : ErrInput) : UnifiedResult T :=
  Except.error (anyhowOf v)

/-- From src/src/lib.rs lines 131 to 134: the fail macro expands to the
foundation's early-return macro, which returns Err of the constructed
error from the enclosing function; this is the value the enclosing
function returns. -/
def failM {T : Type} (v : ErrInput) : UnifiedResult T :=
  Except.error (anyhowOf v)

/-- Modelled from the spec: the conditional guard macro (re-exported
from the foundation at src/src/lib.rs:105) as it appears in a function
body: if the condition holds the rest of the function runs and no error
is constructed; otherwise the function returns at once with a
message-only failure and the rest of the body is never reached. -/
def ensureGuard {T : Type} (cond : Bool) (msg : String)
    (rest : UnifiedResult T) : UnifiedResult T :=
  if cond then rest else Except.error (anyerr msg)

/-- Lower bound of the source language's 32-bit signed integer type,
the type of the doc example's arguments. -/
def i32Min : Int := -2147483648

/-- Upper bound of the source language's 32-bit signed integer type. -/
def i32Max : Int := 2147483647

/-- The source language's 32-bit signed integer division: the
truncating quotient, except that dividing by zero or overflowing the
32-bit range (which happens exactly at i32Min divided by -1) aborts
the program with a panic, modelled as none. -/
def i32Div (a b : Int) : Option Int :=
  if b = 0 then none
  else if Int.tdiv a b < i32Min ∨ i32Max < Int.tdiv a b then none
  else some (Int.tdiv a b)

/-- From the doc example at src/src/lib.rs lines 21 to 27: divide over
32-bit signed integers returns the err-macro failure "Cannot divide by
zero" when b is zero, else evaluates a / b with the source language's
division; none models the panic that division raises on overflow. -/
def divide (a b : Int) : Option (UnifiedResult Int) :=
  if b = 0 then some (errM (.msg "Cannot divide by zero"))
  else (i32Div a b).map Except.ok

/-- For 32-bit operands with a nonzero divisor, the truncating quotient
stays inside the 32-bit range unless the operands are exactly i32Min
and -1: the quotient's absolute value never exceeds the dividend's. -/
theorem i32_tdiv_bounds (a b : Int) (ha : i32Min ≤ a ∧ a ≤ i32Max)
    (hb : i32Min ≤ b ∧ b ≤ i32Max) (h : b ≠ 0)
    (ho : ¬(a = i32Min ∧ b = -1)) :
    i32Min ≤ Int.tdiv a b ∧ Int.tdiv a b ≤ i32Max := by
  have h1 : (Int.tdiv a b).natAbs = a.natAbs / b.natAbs := Int.natAbs_tdiv a b
  have h2 : (Int.tdiv a b).natAbs ≤ a.natAbs := h1 ▸ Nat.div_le_self _ _
  obtain ⟨ha1, ha2⟩ := ha
  obtain ⟨hb1, hb2⟩ := hb
  simp only [i32Min, i32Max] at *
  refine ⟨by omega, ?_⟩
  by_contra hq
  push_neg at hq
  have hqa : (Int.tdiv a b).natAbs = 2147483648 := by omega
  have hba : a.natAbs = 2147483648 := by omega
  have hbb : b.natAbs = 1 := by
    rcases Nat.lt_or_ge b.natAbs 2 with hlt | hge
    · omega
    · exfalso
      have hle : a.natAbs / b.natAbs ≤ a.natAbs / 2 :=
        Nat.div_le_div_left hge (by omega)
      rw [← h1, hqa, hba] at hle
      omega
  have hbv : b = 1 ∨ b = -1 := by omega
  rcases hbv with rfl | rfl
  · rw [Int.tdiv_one] at hq
    omega
  · exact ho ⟨by omega, rfl⟩

/-- The specification's reference form that wrap_err must agree with:
mapping the error of the result with Error::new directly, as in
result.map_err(Error::new). -/
def map_err_spec {T : Type} (r : Except StdError T) : UnifiedResult T :=
  Except.mapError errorNew r

/-- Claim C1: for every concrete error value e implementing the
standard error contract, wrap_err applied to Err e returns a failure
whose to_string output equals the to_string output of e; the display
text of the original error is preserved exactly, and its causal chain
is carried over without truncation. -/
theorem wrap_err_preserves_display {T : Type} (e : StdError) :
    unwrapErrDisplay (wrap_err (T := T) (Except.error e)) = some e.display ∧
    wrap_err (T := T) (Except.error e) = Except.error (errorNew e) ∧
    (errorNew e).display = e.display ∧
    (errorNew e).chainMsgs = e.msgChain :=
  ⟨rfl, rfl, rfl, rfl⟩

/-- Claim C2: for every contract-implementing error value e, converting
e directly via Error::new and boxing e then calling from_boxed_error
produce unified errors with identical to_string output and identical
sequences of chain messages. -/
theorem boxed_equivalence (e : StdError) :
    (from_boxed_error (boxError e)).display = (errorNew e).display ∧
    (from_boxed_error (boxError e)).chainMsgs = (errorNew e).chainMsgs :=
  ⟨rfl, rfl⟩

/-- Claim C3: for every boxed foreign error whose causal chain has
depth N (the error itself plus its source links), from_boxed_error
returns a unified error whose chain count equals N; its display output
equals the input's display output exactly, and iterating its chain
yields the input's message followed by the messages of the input's
source links, in order. -/
theorem from_boxed_chain_preservation (e : StdError) :
    (from_boxed_error e).chainCount = e.chainDepth ∧
    (from_boxed_error e).display = e.display ∧
    (from_boxed_error e).chainMsgs = e.msgChain :=
  ⟨rfl, rfl, rfl⟩

/-- Claim C4: for every value v, wrap_err applied to Ok v returns Ok v
with the value unchanged; no wrapping or error construction occurs on
the success path. -/
theorem wrap_err_ok_passthrough {T : Type} (v : T) :
    wrap_err (Except.ok v) = Except.ok v := rfl

/-- Claim C5: layering context msg onto any existing unified-result
failure increases the failure's chain count by exactly 1, the new head
message of the chain equals msg, and all previously present chain links
are preserved in order after the new head. -/
theorem context_chain_additivity {T : Type} (u : UnifiedError)
    (msg : String) :
    contextR (T := T) (Except.error u) msg = Except.error (u.context msg) ∧
    (u.context msg).chainCount = u.chainCount + 1 ∧
    (u.context msg).chainMsgs = msg :: u.chainMsgs :=
  ⟨rfl, rfl, rfl⟩

/-- Claim C6: the conditional guard macro: given a true condition, it
constructs no error and the rest of the enclosing function executes
(the result is exactly that of the rest of the body); given a false
condition, it returns at once with a failure whose message equals the
given message, and the rest of the body never executes (the result is
independent of it). -/
theorem ensure_guard_short_circuit {T : Type} (msg : String)
    (rest₁ rest₂ : UnifiedResult T) :
    ensureGuard true msg rest₁ = rest₁ ∧
    ensureGuard false msg rest₁ = Except.error (anyerr msg) ∧
    (anyerr msg).display = msg ∧
    ensureGuard false msg rest₁ = ensureGuard false msg rest₂ :=
  ⟨rfl, rfl, rfl, rfl⟩

/-- Claim C7: for every input v, the fail macro produces exactly the
failure Err of the error the anyerr macro constructs from the same v,
whose message therefore equals that of the anyerr macro's error;
likewise the err macro applied to v produces exactly Err of the error
the anyerr macro constructs. -/
theorem fail_err_macro_equivalence {T : Type} (v : ErrInput) :
    failM (T := T) v = Except.error (anyerrM v) ∧
    errM (T := T) v = Except.error (anyerrM v) ∧
    unwrapErrDisplay (failM (T := T) v) = some (anyerrM v).display :=
  ⟨rfl, rfl, rfl⟩

/-- Claim C8 counterexample: at the in-range operands a = i32Min and
b = -1, with b nonzero, divide does not return Ok of the quotient: the
source language's 32-bit division overflows there and the program
panics (modelled as none) instead of producing a value. -/
theorem divide_overflow_counterexample :
    (-1 : Int) ≠ 0 ∧ i32Min ≤ -1 ∧ (-1 : Int) ≤ i32Max ∧
    i32Min ≤ i32Min ∧ i32Min ≤ i32Max ∧
    divide i32Min (-1) = none ∧
    divide i32Min (-1) ≠ some (Except.ok (Int.tdiv i32Min (-1))) := by
  refine ⟨by decide, by decide, by decide, by decide, by decide, rfl, ?_⟩
  intro hcontra
  exact Option.noConfusion hcontra

/-- Claim C8 (amended): the doc-example function divide over 32-bit
signed integers: for all a, divide a 0 yields a failure whose to_string
output is exactly "Cannot divide by zero"; divide 10 2 yields success
value 5; and for in-range operands with b nonzero, except at the pair
(i32Min, -1) where the source language's division panics on overflow,
divide a b returns Ok of the truncating quotient of a by b. -/
theorem divide_correct (a b : Int) (ha : i32Min ≤ a ∧ a ≤ i32Max)
    (hb : i32Min ≤ b ∧ b ≤ i32Max) (h : b ≠ 0)
    (ho : ¬(a = i32Min ∧ b = -1)) :
    divide a 0 = some (Except.error (anyerr "Cannot divide by zero")) ∧
    (anyerr "Cannot divide by zero").display = "Cannot divide by zero" ∧
    divide 10 2 = some (Except.ok 5) ∧
    divide a b = some (Except.ok (Int.tdiv a b)) := by
  refine ⟨rfl, rfl, rfl, ?_⟩
  have hbnd := i32_tdiv_bounds a b ha hb h ho
  have hcond : ¬(Int.tdiv a b < i32Min ∨ i32Max < Int.tdiv a b) := by
    push_neg
    exact ⟨hbnd.1, hbnd.2⟩
  simp [divide, i32Div, h, hcond]

/-- Witness for claim C8 at a = 10, b = 2. -/
theorem divide_correct_witness :
    divide 10 0 = some (Except.error (anyerr "Cannot divide by zero")) ∧
    (anyerr "Cannot divide by zero").display = "Cannot divide by zero" ∧
    divide 10 2 = some (Except.ok 5) ∧
    divide 10 2 = some (Except.ok (Int.tdiv 10 2)) :=
  divide_correct 10 2 (by decide) (by decide) (by decide) (by decide)

/-- Claim C9: for every result r over a contract-implementing error
type, wrap_err r is extensionally equal to r.map_err(Error::new): the
two agree on every input, produce the same success value on Ok, and
failures with the same to_string output on Err. -/
theorem wrap_err_equiv_map_err {T : Type} (r : Except StdError T) (v : T)
    (e : StdError) :
    wrap_err r = map_err_spec r ∧
    wrap_err (Except.ok v) = Except.ok v ∧
    map_err_spec (Except.ok v : Except StdError T) = Except.ok v ∧
    unwrapErrDisplay (wrap_err (T := T) (Except.error e)) =
      unwrapErrDisplay (map_err_spec (Except.error e : Except StdError T)) :=
  ⟨rfl, rfl, rfl, rfl⟩

/-- Claim C10: every unified error constructed from a message or format
string alone, via the anyerr, err or fail macros with no wrapped source
error, has a causal chain of exactly one entry, and that single entry's
message equals the formatted input message. -/
theorem message_only_singleton_chain {T : Type} (s : String) :
    (anyerrM (.msg s)).chainMsgs = [s] ∧
    (anyerrM (.msg s)).chainCount = 1 ∧
    (anyerrM (.msg s)).display = s ∧
    errM (T := T) (.msg s) = Except.error (anyerr s) ∧
    failM (T := T) (.msg s) = Except.error (anyerr s) ∧
    (anyerr s).chainMsgs = [s] :=
  ⟨rfl, rfl, rfl, rfl, rfl, rfl⟩

end Okerr
